import Mathlib

/-!
# Ghost firmware gateway — shallow embedding and verification

This file embeds, in Lean 4, the core of the wireless security gateway
firmware (controller state machine, sensor registries, NVS persistence,
ESP-NOW ingest callback and JSON message decoding) and proves properties
of the embedded code.

The embedding follows the C sources:
* `src/components/controller/controller.c`
* `src/components/comm/comm.c`
* `src/main/includes/system_globals.h`

Conventions: C `enum`s become Lean inductives with the same constructor
names and the same numeric codes; the global mutable context
`gSystemCtx` becomes an explicit state record threaded through the
functions; NVS becomes a small key-value store record; FreeRTOS queues
become bounded lists; tick time (`xTaskGetTickCount() * portTICK_PERIOD_MS`)
becomes an explicit `now : Nat` parameter.
-/

namespace Ghost

/-! ## Enumerations (system_globals.h) -/

/-- `boot_mode_t` from system_globals.h (codes 0,1,2). -/
inductive boot_mode_t where
  | BOOT_MODE_LAST_STATE
  | BOOT_MODE_FORCE_DISARMED
  | BOOT_MODE_FORCE_ARMED
  deriving DecidableEq, Repr

/-- `system_state_t` from system_globals.h (codes 0,1,2,3). -/
inductive system_state_t where
  | SYS_STATE_DISARMED
  | SYS_STATE_ARMED
  | SYS_STATE_ALARM
  | SYS_STATE_TAMPER
  deriving DecidableEq, Repr

/-- `device_type_t` from system_globals.h (codes 0,1,2,3). -/
inductive device_type_t where
  | DEV_TYPE_GATEWAY
  | DEV_TYPE_SENSOR_DOOR
  | DEV_TYPE_SENSOR_PIR
  | DEV_TYPE_KEYPAD
  deriving DecidableEq, Repr

/-- `message_type_t` from system_globals.h (codes 0,1,2,3,4). -/
inductive message_type_t where
  | MSG_TYPE_SENSOR_EVENT
  | MSG_TYPE_ARM_COMMAND
  | MSG_TYPE_DISARM_COMMAND
  | MSG_TYPE_PANIC
  | MSG_TYPE_HEARTBEAT
  deriving DecidableEq, Repr

/-- `sensor_action_t` from system_globals.h (codes 0,1,2). -/
inductive sensor_action_t where
  | SENSOR_ACTION_OPEN
  | SENSOR_ACTION_CLOSED
  | SENSOR_ACTION_TAMPER
  deriving DecidableEq, Repr

/-- The ESP-IDF error codes this core actually returns. -/
inductive esp_err_t where
  | ESP_OK
  | ESP_ERR_INVALID_STATE
  | ESP_ERR_INVALID_ARG
  | ESP_ERR_NO_MEM
  | ESP_ERR_NOT_FOUND
  | ESP_ERR_NVS_NOT_FOUND
  deriving DecidableEq, Repr

/-- Numeric code of a `boot_mode_t`, as the C `(uint8_t)` cast sees it. -/
def boot_mode_t.code : boot_mode_t → Nat
  | .BOOT_MODE_LAST_STATE => 0
  | .BOOT_MODE_FORCE_DISARMED => 1
  | .BOOT_MODE_FORCE_ARMED => 2

/-- The C cast `(boot_mode_t)u8` applied to a loaded byte. Codes ≥ 3 have
no named enumerator; `determine_initial_state` treats them via its
`default` branch exactly like `BOOT_MODE_LAST_STATE`, so they are mapped
to it (no claim depends on out-of-range stored bytes). -/
def boot_mode_t.ofCode (n : Nat) : boot_mode_t :=
  if n = 1 then .BOOT_MODE_FORCE_DISARMED
  else if n = 2 then .BOOT_MODE_FORCE_ARMED
  else .BOOT_MODE_LAST_STATE

/-- Numeric code of a `system_state_t`, as the C `(uint8_t)` cast sees it. -/
def system_state_t.code : system_state_t → Nat
  | .SYS_STATE_DISARMED => 0
  | .SYS_STATE_ARMED => 1
  | .SYS_STATE_ALARM => 2
  | .SYS_STATE_TAMPER => 3

/-- The C cast `(system_state_t)u8` applied to a loaded byte (bytes ≥ 4
have no named enumerator and never result from `save_state_to_nvs`;
they are mapped to the zero state). -/
def system_state_t.ofCode (n : Nat) : system_state_t :=
  if n = 1 then .SYS_STATE_ARMED
  else if n = 2 then .SYS_STATE_ALARM
  else if n = 3 then .SYS_STATE_TAMPER
  else .SYS_STATE_DISARMED

/-! ## Message and registry records (system_globals.h) -/

/-- `DEVICE_ID_MAX_LEN` — ids are stored in `char[16]`, so `strncpy`
with `DEVICE_ID_MAX_LEN - 1` keeps at most 15 characters. -/
def DEVICE_ID_MAX_LEN : Nat := 16

/-- `MAX_SENSORS` from system_globals.h. -/
def MAX_SENSORS : Nat := 16

/-- `ESPNOW_MAX_DATA_LEN` from system_globals.h. -/
def ESPNOW_MAX_DATA_LEN : Int := 250

/-- `message_header_t`. -/
structure message_header_t where
  version : Nat
  src_id : String
  src_type : device_type_t
  deriving DecidableEq, Repr

/-- `message_payload_t` (`action` is a `uint8_t` in C, always holding a
`sensor_action_t` code). -/
structure message_payload_t where
  type : message_type_t
  action : sensor_action_t
  value : Nat
  deriving DecidableEq, Repr

/-- `controller_message_t`. -/
structure controller_message_t where
  header : message_header_t
  payload : message_payload_t
  rssi : Int
  deriving DecidableEq, Repr

/-- `sensor_info_t`. -/
structure sensor_info_t where
  device_id : String
  type : device_type_t
  state : Nat
  is_registered : Nat
  last_seen : Nat
  last_rssi : Int
  deriving DecidableEq, Repr

/-- The fields of `system_context_t` the control logic reads or writes
(queue handle and mutex are FreeRTOS plumbing; the sensor array plus
`sensor_count` is modelled as the list of its first `sensor_count`
entries). -/
structure system_context_t where
  current_state : system_state_t
  previous_state : system_state_t
  boot_mode : boot_mode_t
  sensors : List sensor_info_t
  deriving DecidableEq, Repr

/-- `gSystemCtx` as zero-initialized C global storage. -/
def initial_context : system_context_t :=
  { current_state := .SYS_STATE_DISARMED
    previous_state := .SYS_STATE_DISARMED
    boot_mode := .BOOT_MODE_LAST_STATE
    sensors := [] }

/-! ## NVS model (the durable key-value collaborator)

`controller.c` uses one namespace `"sys_cfg"` with two `u8` keys,
`"boot_mode"` and `"last_state"`. Opening the namespace `NVS_READONLY`
fails with `ESP_ERR_NVS_NOT_FOUND` when it was never created; opening it
`NVS_READWRITE` creates it. `nvs_get_u8` leaves the output variable
untouched when the key is absent (the callers initialize it to 0). -/

/-- Contents of the `"sys_cfg"` NVS namespace. -/
structure nvs_sys_cfg where
  boot_mode : Option Nat
  last_state : Option Nat
  deriving DecidableEq, Repr

/-- The durable store: `none` while the namespace was never created. -/
structure NVS where
  sys_cfg : Option nvs_sys_cfg
  deriving DecidableEq, Repr

/-! ## controller.c — persistence and boot resolution -/

/-- `load_state_from_nvs` (controller.c:97-126): on
`ESP_ERR_NVS_NOT_FOUND` install defaults (`BOOT_MODE_LAST_STATE`,
`SYS_STATE_DISARMED`, `sensor_count = 0`); otherwise read the two `u8`
keys into locals initialized to 0 and cast them into the context. -/
def load_state_from_nvs (nvs : NVS) (ctx : system_context_t) :
    system_context_t × esp_err_t :=
  match nvs.sys_cfg with
  | none =>
      ({ ctx with
          boot_mode := .BOOT_MODE_LAST_STATE
          current_state := .SYS_STATE_DISARMED
          sensors := [] }, .ESP_OK)
  | some ns =>
      ({ ctx with
          boot_mode := boot_mode_t.ofCode (ns.boot_mode.getD 0)
          current_state := system_state_t.ofCode (ns.last_state.getD 0) },
        .ESP_OK)

/-- `save_state_to_nvs` (controller.c:131-145): open `NVS_READWRITE`
(creating the namespace when absent) and store both values as `u8`. -/
def save_state_to_nvs (nvs : NVS) (ctx : system_context_t) : NVS × esp_err_t :=
  ({ sys_cfg := some
      { boot_mode := some ctx.boot_mode.code
        last_state := some ctx.current_state.code } }, .ESP_OK)

/-- `determine_initial_state` (controller.c:150-167): force states for
the two force modes; `BOOT_MODE_LAST_STATE` (and the `default` branch)
keep the state already loaded from NVS. -/
def determine_initial_state (ctx : system_context_t) : system_context_t :=
  match ctx.boot_mode with
  | .BOOT_MODE_FORCE_DISARMED => { ctx with current_state := .SYS_STATE_DISARMED }
  | .BOOT_MODE_FORCE_ARMED => { ctx with current_state := .SYS_STATE_ARMED }
  | .BOOT_MODE_LAST_STATE => ctx

/-- The boot sequence of `controller_init` (controller.c:221-224): load
the persisted pair, then resolve the boot mode. -/
def controller_boot_context (nvs : NVS) : system_context_t :=
  determine_initial_state (load_state_from_nvs nvs initial_context).1

/-! ## controller.c — state machine -/

/-- The whole mutable world the controller logic touches: the global
context plus the durable store it persists into. -/
structure GlobalState where
  ctx : system_context_t
  nvs : NVS
  deriving DecidableEq, Repr

/-- `controller_get_state` (controller.c:274-281): read under the mutex. -/
def controller_get_state (g : GlobalState) : system_state_t :=
  g.ctx.current_state

/-- `controller_set_state` (controller.c:283-302): retain the previous
state, install the new one, synchronously persist (the result of
`save_state_to_nvs` is ignored), notify UI and Supabase (external
side effects), and return `ESP_OK`. -/
def controller_set_state (g : GlobalState) (state : system_state_t) :
    GlobalState × esp_err_t :=
  let ctx' := { g.ctx with
      previous_state := g.ctx.current_state
      current_state := state }
  let (nvs', _) := save_state_to_nvs g.nvs ctx'
  ({ ctx := ctx', nvs := nvs' }, .ESP_OK)

/-- `controller_arm` (controller.c:304-315): refuse with
`ESP_ERR_INVALID_STATE` when already armed, otherwise set `ARMED`. -/
def controller_arm (g : GlobalState) : GlobalState × esp_err_t :=
  if controller_get_state g = .SYS_STATE_ARMED then
    (g, .ESP_ERR_INVALID_STATE)
  else
    let (g', _) := controller_set_state g .SYS_STATE_ARMED
    (g', .ESP_OK)

/-- `controller_disarm` (controller.c:317-323): unconditionally set
`DISARMED`. -/
def controller_disarm (g : GlobalState) : GlobalState × esp_err_t :=
  let (g', _) := controller_set_state g .SYS_STATE_DISARMED
  (g', .ESP_OK)

/-- `controller_trigger_alarm` (controller.c:325-331): unconditionally
set `ALARM`. -/
def controller_trigger_alarm (g : GlobalState) : GlobalState × esp_err_t :=
  let (g', _) := controller_set_state g .SYS_STATE_ALARM
  (g', .ESP_OK)

/-! ## controller.c — sensor registry -/

/-- The search-and-update loop of `controller_update_sensor_state`
(controller.c:374-380): first record whose `device_id` matches by
`strcmp` gets `state` and `last_seen` refreshed in place. -/
def update_existing_sensor (sensors : List sensor_info_t) (device_id : String)
    (state now : Nat) : Option (List sensor_info_t) :=
  match sensors with
  | [] => none
  | s :: rest =>
      if s.device_id = device_id then
        some ({ s with state := state, last_seen := now } :: rest)
      else
        (update_existing_sensor rest device_id state now).map (s :: ·)

/-- `controller_update_sensor_state` (controller.c:371-392): update an
existing record in place, else append a new one when
`sensor_count < MAX_SENSORS` (`strncpy` keeps 15 id characters; the
remaining fields of the fresh array slot are zero-initialized storage),
else do nothing; every path returns `ESP_OK`. `now` stands for
`xTaskGetTickCount() * portTICK_PERIOD_MS`. -/
def controller_update_sensor_state (g : GlobalState) (device_id : String)
    (state : Nat) (now : Nat) : GlobalState × esp_err_t :=
  match update_existing_sensor g.ctx.sensors device_id state now with
  | some sensors' => ({ g with ctx := { g.ctx with sensors := sensors' } }, .ESP_OK)
  | none =>
      if g.ctx.sensors.length < MAX_SENSORS then
        ({ g with ctx := { g.ctx with sensors := g.ctx.sensors ++
            [{ device_id := device_id.take (DEVICE_ID_MAX_LEN - 1)
               type := .DEV_TYPE_GATEWAY
               state := state
               is_registered := 0
               last_seen := now
               last_rssi := 0 }] } }, .ESP_OK)
      else
        (g, .ESP_OK)

/-- `controller_process_sensor_event` (controller.c:340-369): read the
current state, upsert the sensor record (`state = 1` iff the action is
`SENSOR_ACTION_OPEN`), trigger the alarm when armed and open, and on
`SENSOR_ACTION_TAMPER` always move to `TAMPER`. -/
def controller_process_sensor_event (g : GlobalState)
    (message : controller_message_t) (now : Nat) : GlobalState × esp_err_t :=
  let current_state := controller_get_state g
  let sensor_state : Nat :=
    if message.payload.action = .SENSOR_ACTION_OPEN then 1 else 0
  let (g1, _) := controller_update_sensor_state g message.header.src_id sensor_state now
  let g2 :=
    if current_state = .SYS_STATE_ARMED ∧ sensor_state = 1 then
      (controller_trigger_alarm g1).1
    else g1
  let g3 :=
    if message.payload.action = .SENSOR_ACTION_TAMPER then
      (controller_set_state g2 .SYS_STATE_TAMPER).1
    else g2
  (g3, .ESP_OK)

/-- `process_message` (controller.c:172-203): dispatch on the payload
type; the `MSG_TYPE_HEARTBEAT` arm only logs. -/
def process_message (g : GlobalState) (message : controller_message_t)
    (now : Nat) : GlobalState :=
  match message.payload.type with
  | .MSG_TYPE_SENSOR_EVENT => (controller_process_sensor_event g message now).1
  | .MSG_TYPE_ARM_COMMAND => (controller_arm g).1
  | .MSG_TYPE_DISARM_COMMAND => (controller_disarm g).1
  | .MSG_TYPE_PANIC => (controller_trigger_alarm g).1
  | .MSG_TYPE_HEARTBEAT => g

/-- The steady-state loop of `controller_task` (controller.c:407-421):
dequeue messages in FIFO arrival order and feed each to
`process_message`. Each queue element is paired with the tick time at
which the controller handles it. -/
def controller_run (g : GlobalState) (queue : List (controller_message_t × Nat)) :
    GlobalState :=
  queue.foldl (fun acc m => process_message acc m.1 m.2) g

/-! ## comm.c — interrupt-context receive callback -/

/-- `raw_data_t` (comm.c:38-42): the fixed 250-byte buffer is modelled
by the list of the `len` bytes actually copied into it. -/
structure raw_data_t where
  data : List Nat
  len : Int
  src_mac : List Nat
  deriving DecidableEq, Repr

/-- The mutable state `comm_esp_now_recv_cb` touches:
`s_raw_data_queue`, created by `comm_init` with capacity 10 (`none`
while `comm_init` has not run). This is the complete effect footprint
of the callback — in particular comm.c keeps no drop counter. -/
structure CommIsrState where
  raw_data_queue : Option (List raw_data_t)
  deriving DecidableEq, Repr

/-- Capacity of `s_raw_data_queue` (`xQueueCreate(10, ...)`, comm.c:245). -/
def RAW_QUEUE_CAPACITY : Nat := 10

/-- `comm_esp_now_recv_cb` (comm.c:192-217): reject `len ≤ 0` or
`len > ESPNOW_MAX_DATA_LEN` silently; bail out when the queue does not
exist; copy `len` bytes and the 6-byte source MAC into a `raw_data_t`
and enqueue it from ISR context without blocking; when the queue is
full the frame is discarded (the failing `xQueueSendFromISR` branch is
empty). -/
def comm_esp_now_recv_cb (st : CommIsrState) (src_addr : List Nat)
    (data : List Nat) (len : Int) : CommIsrState :=
  if len ≤ 0 ∨ len > ESPNOW_MAX_DATA_LEN then st
  else
    match st.raw_data_queue with
    | none => st
    | some q =>
        if q.length < RAW_QUEUE_CAPACITY then
          let raw_data : raw_data_t :=
            { data := data.take len.toNat
              len := len
              src_mac := src_addr.take 6 }
          { st with raw_data_queue := some (q ++ [raw_data]) }
        else
          st

/-! ## comm.c — sensor registry (`s_registered_sensors`) -/

/-- Capacity of `s_registered_sensors` (comm.c:28: `sensor_info_t [10]`). -/
def COMM_MAX_SENSORS : Nat := 10

/-- The search-and-update loop of `comm_register_sensor`
(comm.c:375-381): the first record whose id matches gets
`is_registered = 1` and a refreshed `last_seen`. -/
def comm_update_registered (sensors : List sensor_info_t)
    (device_id : String) (now : Nat) : Option (List sensor_info_t) :=
  match sensors with
  | [] => none
  | s :: rest =>
      if s.device_id = device_id then
        some ({ s with is_registered := 1, last_seen := now } :: rest)
      else
        (comm_update_registered rest device_id now).map (s :: ·)

/-- `comm_register_sensor` (comm.c:368-407): reject with
`ESP_ERR_NO_MEM` whenever `s_sensor_count >= 10` — this check runs
before the existence scan, so at capacity even an already-present id
is rejected without being refreshed. Below capacity: refresh an
existing record, or append a new one (id truncated to 15 characters,
`state = 0`, `is_registered = 1`, `last_rssi = 0`). The ESP-NOW peer
registration is an external side effect. -/
def comm_register_sensor (sensors : List sensor_info_t)
    (device_id : String) (type : device_type_t) (now : Nat) :
    List sensor_info_t × esp_err_t :=
  if COMM_MAX_SENSORS ≤ sensors.length then
    (sensors, .ESP_ERR_NO_MEM)
  else
    match comm_update_registered sensors device_id now with
    | some sensors' => (sensors', .ESP_OK)
    | none =>
        (sensors ++ [{ device_id := device_id.take (DEVICE_ID_MAX_LEN - 1)
                       type := type
                       state := 0
                       is_registered := 1
                       last_seen := now
                       last_rssi := 0 }], .ESP_OK)

/-- The loop of `comm_unregister_sensor` (comm.c:409-419): clear
`is_registered` on the first matching record; report `ESP_ERR_NOT_FOUND`
when no record matches. The record itself is never removed. -/
def comm_unregister_sensor (sensors : List sensor_info_t)
    (device_id : String) : List sensor_info_t × esp_err_t :=
  match sensors with
  | [] => ([], .ESP_ERR_NOT_FOUND)
  | s :: rest =>
      if s.device_id = device_id then
        ({ s with is_registered := 0 } :: rest, .ESP_OK)
      else
        let (rest', err) := comm_unregister_sensor rest device_id
        (s :: rest', err)

/-! ## comm.c — JSON decoding (`parse_json_message`)

The wire codec itself (cJSON text parsing) is an external collaborator;
a successfully parsed document is modelled as a `Json` tree, and
`cJSON_Parse` as `Option Json` (`none` for syntactically invalid text). -/

/-- A parsed cJSON document. -/
inductive Json where
  | null
  | boolean (b : Bool)
  | number (n : Int)
  | str (s : String)
  | arr (items : List Json)
  | obj (fields : List (String × Json))

/-- `cJSON_GetObjectItem`: first member with a case-insensitively equal
name, on objects only. -/
def cJSON_GetObjectItem (j : Json) (key : String) : Option Json :=
  match j with
  | .obj fields =>
      (fields.find? (fun f => f.1.toLower = key.toLower)).map (·.2)
  | _ => none

/-- `cJSON_IsString`. -/
def cJSON_IsString : Json → Bool
  | .str _ => true
  | _ => false

/-- `cJSON_IsNumber`. -/
def cJSON_IsNumber : Json → Bool
  | .number _ => true
  | _ => false

/-- The `valueint` field a parsed cJSON item carries (numbers keep their
value, `true` parses with `valueint = 1`, everything else leaves the
zeroed allocation). -/
def Json.valueint : Json → Int
  | .number n => n
  | .boolean b => if b then 1 else 0
  | _ => 0

/-- The `valuestring` of a string item (empty for the rest — only ever
read behind `cJSON_IsString`). -/
def Json.valuestring : Json → String
  | .str s => s
  | _ => ""

/-- The header block of `parse_json_message` (comm.c:74-95): each field
updates the message only when present (and, for `src_id`/`src_type`, a
string); `src_id` is truncated to 15 characters; unknown `src_type`
strings leave the field untouched. -/
def parse_header (header : Json) (message : controller_message_t) :
    controller_message_t :=
  let m1 :=
    match cJSON_GetObjectItem header "ver" with
    | some ver => { message with header.version := ver.valueint.toNat }
    | none => message
  let m2 :=
    match cJSON_GetObjectItem header "src_id" with
    | some src_id =>
        if cJSON_IsString src_id then
          { m1 with header.src_id :=
              src_id.valuestring.take (DEVICE_ID_MAX_LEN - 1) }
        else m1
    | none => m1
  match cJSON_GetObjectItem header "src_type" with
  | some src_type =>
      if cJSON_IsString src_type then
        if src_type.valuestring = "SEC_SENSOR" then
          { m2 with header.src_type := .DEV_TYPE_SENSOR_DOOR }
        else if src_type.valuestring = "PIR_SENSOR" then
          { m2 with header.src_type := .DEV_TYPE_SENSOR_PIR }
        else if src_type.valuestring = "KEYPAD" then
          { m2 with header.src_type := .DEV_TYPE_KEYPAD }
        else m2
      else m2
  | none => m2

/-- The payload block of `parse_json_message` (comm.c:98-143):
recognized `type` strings select the message type; `action` strings
`OPEN`/`CLOSED`/`TAMPER` set the action (`STATE_CHANGE` intentionally
does nothing); a string `value` of `OPEN`/`CLOSED` also sets the
action; a numeric `battery` lands in `payload.value`. Unrecognized or
absent fields leave the zero-initialized message untouched. -/
def parse_payload (payload : Json) (message : controller_message_t) :
    controller_message_t :=
  let m1 :=
    match cJSON_GetObjectItem payload "type" with
    | some type =>
        if cJSON_IsString type then
          if type.valuestring = "EVENT" then
            { message with payload.type := .MSG_TYPE_SENSOR_EVENT }
          else if type.valuestring = "ARM" then
            { message with payload.type := .MSG_TYPE_ARM_COMMAND }
          else if type.valuestring = "DISARM" then
            { message with payload.type := .MSG_TYPE_DISARM_COMMAND }
          else if type.valuestring = "PANIC" then
            { message with payload.type := .MSG_TYPE_PANIC }
          else if type.valuestring = "HEARTBEAT" then
            { message with payload.type := .MSG_TYPE_HEARTBEAT }
          else message
        else message
    | none => message
  let m2 :=
    match cJSON_GetObjectItem payload "action" with
    | some action =>
        if cJSON_IsString action then
          if action.valuestring = "STATE_CHANGE" then m1
          else if action.valuestring = "OPEN" then
            { m1 with payload.action := .SENSOR_ACTION_OPEN }
          else if action.valuestring = "CLOSED" then
            { m1 with payload.action := .SENSOR_ACTION_CLOSED }
          else if action.valuestring = "TAMPER" then
            { m1 with payload.action := .SENSOR_ACTION_TAMPER }
          else m1
        else m1
    | none => m1
  let m3 :=
    match cJSON_GetObjectItem payload "value" with
    | some value =>
        if cJSON_IsString value then
          if value.valuestring = "OPEN" then
            { m2 with payload.action := .SENSOR_ACTION_OPEN }
          else if value.valuestring = "CLOSED" then
            { m2 with payload.action := .SENSOR_ACTION_CLOSED }
          else m2
        else m2
    | none => m2
  match cJSON_GetObjectItem payload "battery" with
  | some battery =>
      if cJSON_IsNumber battery then
        { m3 with payload.value := battery.valueint.toNat }
      else m3
  | none => m3

/-- `parse_json_message` (comm.c:52-147), after the external
`cJSON_Parse` step: `none` (invalid JSON) yields
`ESP_ERR_INVALID_ARG`; any parsed document is walked for the optional
`header` and `payload` objects and the call returns `ESP_OK`. -/
def parse_json_message (root : Option Json) (message : controller_message_t) :
    esp_err_t × controller_message_t :=
  match root with
  | none => (.ESP_ERR_INVALID_ARG, message)
  | some doc =>
      let m1 :=
        match cJSON_GetObjectItem doc "header" with
        | some header => parse_header header message
        | none => message
      let m2 :=
        match cJSON_GetObjectItem doc "payload" with
        | some payload => parse_payload payload m1
        | none => m1
      (.ESP_OK, m2)

/-- The `memset(&message, 0, sizeof(controller_message_t))` in
`comm_processing_task` (comm.c:166): all enum fields at code 0, empty
id, zero numbers. -/
def zero_message : controller_message_t :=
  { header := { version := 0, src_id := "", src_type := .DEV_TYPE_GATEWAY }
    payload := { type := .MSG_TYPE_SENSOR_EVENT
                 action := .SENSOR_ACTION_OPEN
                 value := 0 }
    rssi := 0 }

/-- One iteration of `comm_processing_task` (comm.c:160-181) on a
dequeued raw frame: zero the message, decode it, stamp the placeholder
RSSI and hand it to the controller queue; decode failures produce
nothing. -/
def comm_processing_step (root : Option Json) : Option controller_message_t :=
  let (err, message) := parse_json_message root zero_message
  if err = .ESP_OK then some { message with rssi := -50 } else none

/-! ## The §4.3 transition table, written from the specification

This definition is deliberately transcribed from the spec's transition
table (one row per match arm), to be compared against the embedded code
above; combinations the table leaves blank keep the current state. -/

/-- The step function of the §4.3 transition table of the spec:
`disarm()` always disarms; `arm()` arms unless already armed (then no
state change); `SensorEvent(open)` while armed raises the alarm and is
otherwise a no-op on the state; `SensorEvent(closed)` never changes
state; `SensorEvent(tamper)` moves to `Tamper` from any state; `Panic`
moves to `Alarm` from any state; `Heartbeat` never changes state. -/
def spec_transition_step (s : system_state_t) (message : controller_message_t) :
    system_state_t :=
  match message.payload.type with
  | .MSG_TYPE_DISARM_COMMAND => .SYS_STATE_DISARMED
  | .MSG_TYPE_ARM_COMMAND =>
      if s = .SYS_STATE_ARMED then s else .SYS_STATE_ARMED
  | .MSG_TYPE_SENSOR_EVENT =>
      match message.payload.action with
      | .SENSOR_ACTION_TAMPER => .SYS_STATE_TAMPER
      | .SENSOR_ACTION_OPEN =>
          if s = .SYS_STATE_ARMED then .SYS_STATE_ALARM else s
      | .SENSOR_ACTION_CLOSED => s
  | .MSG_TYPE_PANIC => .SYS_STATE_ALARM
  | .MSG_TYPE_HEARTBEAT => s

/-! ## Helper lemmas -/

/-- Registry upserts never touch the security state. -/
theorem controller_update_sensor_state_current_state (g : GlobalState)
    (device_id : String) (state now : Nat) :
    ((controller_update_sensor_state g device_id state now).1).ctx.current_state
      = g.ctx.current_state := by
  unfold controller_update_sensor_state
  cases update_existing_sensor g.ctx.sensors device_id state now with
  | none => by_cases h : g.ctx.sensors.length < MAX_SENSORS <;> simp [h]
  | some sensors' => simp

/-- One controller dispatch step tracks the §4.3 transition table on the
current state. -/
theorem process_message_matches_table (g : GlobalState)
    (message : controller_message_t) (now : Nat) :
    (process_message g message now).ctx.current_state
      = spec_transition_step g.ctx.current_state message := by
  unfold process_message spec_transition_step
  cases htype : message.payload.type with
  | MSG_TYPE_ARM_COMMAND =>
      unfold controller_arm controller_get_state
      by_cases h : g.ctx.current_state = .SYS_STATE_ARMED <;>
        simp [h, controller_set_state]
  | MSG_TYPE_DISARM_COMMAND =>
      simp [controller_disarm, controller_set_state]
  | MSG_TYPE_PANIC =>
      simp [controller_trigger_alarm, controller_set_state]
  | MSG_TYPE_HEARTBEAT => simp
  | MSG_TYPE_SENSOR_EVENT =>
      unfold controller_process_sensor_event controller_get_state
      cases haction : message.payload.action with
      | SENSOR_ACTION_OPEN =>
          by_cases h : g.ctx.current_state = .SYS_STATE_ARMED <;>
            simp [h, controller_trigger_alarm, controller_set_state,
              controller_update_sensor_state_current_state]
      | SENSOR_ACTION_CLOSED =>
          simp [controller_update_sensor_state_current_state]
      | SENSOR_ACTION_TAMPER =>
          simp [controller_set_state]

/-! ## Claims -/

/-- C1: for every finite sequence of messages on the dispatch queue, the
state after the controller task has processed them all equals the fold
of the §4.3 transition-table step over the messages in arrival order,
starting from the boot-resolved initial state. The fold only sees the
messages themselves (`spec_transition_step` reads no header field), so
the result is independent of which producer enqueued each message and
of the tick times at which they were handled. -/
theorem controller_run_is_table_fold (nvs : NVS)
    (queue : List (controller_message_t × Nat)) :
    (controller_run { ctx := controller_boot_context nvs, nvs := nvs } queue).ctx.current_state
      = (queue.map Prod.fst).foldl spec_transition_step
          (controller_boot_context nvs).current_state := by
  have main : ∀ (q : List (controller_message_t × Nat)) (g : GlobalState),
      (controller_run g q).ctx.current_state
        = (q.map Prod.fst).foldl spec_transition_step g.ctx.current_state := by
    intro q
    induction q with
    | nil => intro g; rfl
    | cons m rest ih =>
        intro g
        have hstep := process_message_matches_table g m.1 m.2
        simpa [controller_run, hstep] using ih (process_message g m.1 m.2)
  exact main queue _

/-- A concrete global state used by several witnesses: armed, one sensor
on record, a populated store. -/
def sample_armed_state : GlobalState :=
  { ctx :=
      { current_state := .SYS_STATE_ARMED
        previous_state := .SYS_STATE_DISARMED
        boot_mode := .BOOT_MODE_LAST_STATE
        sensors := [{ device_id := "SENSOR_01"
                      type := .DEV_TYPE_SENSOR_DOOR
                      state := 0
                      is_registered := 1
                      last_seen := 0
                      last_rssi := -40 }] }
    nvs := { sys_cfg := some { boot_mode := some 0, last_state := some 1 } } }

/-- C2: `controller_arm` while already `Armed` returns
`ESP_ERR_INVALID_STATE` and leaves the whole global state (context and
store) unchanged; from `Disarmed`, `Alarm` or `Tamper` it returns
`ESP_OK` and the state becomes `Armed`. -/
theorem controller_arm_spec (g : GlobalState) :
    (g.ctx.current_state = .SYS_STATE_ARMED →
        controller_arm g = (g, .ESP_ERR_INVALID_STATE)) ∧
    (g.ctx.current_state ≠ .SYS_STATE_ARMED →
        (controller_arm g).2 = .ESP_OK ∧
        ((controller_arm g).1).ctx.current_state = .SYS_STATE_ARMED) := by
  constructor
  · intro h
    simp [controller_arm, controller_get_state, h]
  · intro h
    simp [controller_arm, controller_get_state, h, controller_set_state]

/-- Witness for C2 at two concrete states: armed (rejection, unchanged)
and disarmed (success). -/
theorem controller_arm_spec_witness :
    controller_arm sample_armed_state = (sample_armed_state, .ESP_ERR_INVALID_STATE) ∧
    ((controller_arm { sample_armed_state with
        ctx := { sample_armed_state.ctx with
          current_state := .SYS_STATE_DISARMED } }).1).ctx.current_state
      = .SYS_STATE_ARMED :=
  ⟨(controller_arm_spec sample_armed_state).1 rfl,
   ((controller_arm_spec _).2 (by decide)).2⟩

/-- C3: `controller_disarm` succeeds from every state and yields
`Disarmed`; in particular a repeated `disarm()` also returns `ESP_OK`
and leaves the state `Disarmed`. -/
theorem controller_disarm_spec (g : GlobalState) :
    (controller_disarm g).2 = .ESP_OK ∧
    ((controller_disarm g).1).ctx.current_state = .SYS_STATE_DISARMED ∧
    (controller_disarm (controller_disarm g).1).2 = .ESP_OK ∧
    ((controller_disarm (controller_disarm g).1).1).ctx.current_state
      = .SYS_STATE_DISARMED := by
  simp [controller_disarm, controller_set_state]

/-- C4: a `SENSOR_ACTION_TAMPER` sensor event ends in `SYS_STATE_TAMPER`
from every current state: the tamper branch runs last in
`controller_process_sensor_event`, after (and overriding) the
armed-intrusion alarm logic. -/
theorem tamper_dominance (g : GlobalState) (message : controller_message_t)
    (now : Nat) (h : message.payload.action = .SENSOR_ACTION_TAMPER) :
    ((controller_process_sensor_event g message now).1).ctx.current_state
      = .SYS_STATE_TAMPER := by
  unfold controller_process_sensor_event
  simp [h, controller_set_state]

/-- Witness for C4: a concrete tamper event processed while armed. -/
theorem tamper_dominance_witness :
    ((controller_process_sensor_event sample_armed_state
        { zero_message with payload.action := .SENSOR_ACTION_TAMPER } 5).1).ctx.current_state
      = .SYS_STATE_TAMPER :=
  tamper_dominance sample_armed_state _ 5 rfl

/-- C5 (evidence): a `MSG_TYPE_HEARTBEAT` message leaves the *entire*
global state unchanged — the system state is preserved as the claim
says, but the originating sensor's `last_seen` registry field is *not*
refreshed: the heartbeat arm of `process_message` (controller.c:198-201)
only logs, although its own comment announces the `last_seen` update. -/
theorem heartbeat_is_a_no_op (g : GlobalState) (message : controller_message_t)
    (now : Nat) (h : message.payload.type = .MSG_TYPE_HEARTBEAT) :
    process_message g message now = g := by
  unfold process_message
  simp [h]

/-- Witness for C5: a heartbeat from the registered sensor `SENSOR_01`
handled at tick 1000 leaves its `last_seen` at 0. -/
theorem heartbeat_is_a_no_op_witness :
    process_message sample_armed_state
        { zero_message with
          header.src_id := "SENSOR_01"
          payload.type := .MSG_TYPE_HEARTBEAT } 1000
      = sample_armed_state ∧
    sample_armed_state.ctx.sensors.map sensor_info_t.last_seen = [0] :=
  ⟨heartbeat_is_a_no_op sample_armed_state _ 1000 rfl, rfl⟩

/-- A raw-frame queue filled to its capacity of 10. -/
def full_raw_queue : List raw_data_t :=
  List.replicate RAW_QUEUE_CAPACITY { data := [1], len := 1, src_mac := [0, 0, 0, 0, 0, 0] }

/-- C6 (counterexample to "dropped **and counted**"): delivering a valid
1-byte frame to a full raw queue leaves the complete mutable footprint
of `comm_esp_now_recv_cb` — `s_raw_data_queue`, the only state it
writes — exactly unchanged. The drop is recorded nowhere: comm.c keeps
no overrun counter (the failing `xQueueSendFromISR` branch at
comm.c:210-212 is an empty block). -/
theorem recv_cb_full_queue_counts_nothing :
    comm_esp_now_recv_cb { raw_data_queue := some full_raw_queue }
        [1, 2, 3, 4, 5, 6] [42] 1
      = { raw_data_queue := some full_raw_queue } := by
  decide

/-- C6 (amended): the callback silently rejects any frame whose length
lies outside `(0, ESPNOW_MAX_DATA_LEN]` (no copy, no enqueue, no other
effect), and when the raw queue is full a valid frame is silently
dropped — the callback still returns without blocking, but no drop
count is maintained. -/
theorem recv_cb_rejects_and_drops (st : CommIsrState) (src_addr data : List Nat)
    (len : Int) (q : List raw_data_t) :
    ((len ≤ 0 ∨ ESPNOW_MAX_DATA_LEN < len) →
        comm_esp_now_recv_cb st src_addr data len = st) ∧
    (0 < len → len ≤ ESPNOW_MAX_DATA_LEN → RAW_QUEUE_CAPACITY ≤ q.length →
        comm_esp_now_recv_cb { raw_data_queue := some q } src_addr data len
          = { raw_data_queue := some q }) := by
  constructor
  · intro h
    unfold comm_esp_now_recv_cb
    simp [h]
  · intro h0 hmax hfull
    unfold comm_esp_now_recv_cb
    have hnot : ¬(len ≤ 0 ∨ ESPNOW_MAX_DATA_LEN < len) := by omega
    simp [hnot, Nat.not_lt.mpr hfull]

/-- Witness for C6: an oversized frame (len 251) bounces off an empty
queue, and a valid frame bounces off the full queue. -/
theorem recv_cb_rejects_and_drops_witness :
    comm_esp_now_recv_cb { raw_data_queue := some [] } [9] [7] 251
      = { raw_data_queue := some [] } ∧
    comm_esp_now_recv_cb { raw_data_queue := some full_raw_queue } [9] [7] 8
      = { raw_data_queue := some full_raw_queue } :=
  ⟨(recv_cb_rejects_and_drops { raw_data_queue := some [] } [9] [7] 251 []).1
      (by decide),
   (recv_cb_rejects_and_drops { raw_data_queue := some full_raw_queue }
        [9] [7] 8 full_raw_queue).2
      (by decide) (by decide) (by decide)⟩

/-- C7: boot resolution. A stored `FORCE_DISARMED` mode (byte 1) resolves
to `Disarmed` and a stored `FORCE_ARMED` mode (byte 2) to `Armed`,
whatever last-state byte is stored; `LAST_STATE` (byte 0) restores the
stored state; an empty store — the namespace never created, or created
with neither key — resolves to `Disarmed`. -/
theorem boot_resolution :
    (∀ stored : Nat,
      (controller_boot_context
        { sys_cfg := some { boot_mode := some 1, last_state := some stored } }).current_state
        = .SYS_STATE_DISARMED) ∧
    (∀ stored : Nat,
      (controller_boot_context
        { sys_cfg := some { boot_mode := some 2, last_state := some stored } }).current_state
        = .SYS_STATE_ARMED) ∧
    (∀ s : system_state_t,
      (controller_boot_context
        { sys_cfg := some { boot_mode := some 0, last_state := some s.code } }).current_state
        = s) ∧
    (controller_boot_context { sys_cfg := none }).current_state
      = .SYS_STATE_DISARMED ∧
    (controller_boot_context
        { sys_cfg := some { boot_mode := none, last_state := none } }).current_state
      = .SYS_STATE_DISARMED := by
  refine ⟨?_, ?_, ?_, rfl, rfl⟩
  · intro stored
    simp [controller_boot_context, load_state_from_nvs, boot_mode_t.ofCode,
      determine_initial_state]
  · intro stored
    simp [controller_boot_context, load_state_from_nvs, boot_mode_t.ofCode,
      determine_initial_state]
  · intro s
    cases s <;> rfl

/-- C8: persistence round-trip. Saving any `(bootMode, state)` pair
through the State Store adapter and loading it back returns the
identical pair, for every prior store content and context. -/
theorem persistence_round_trip (bm : boot_mode_t) (st : system_state_t)
    (nvs : NVS) (ctx ctx2 : system_context_t) :
    ((load_state_from_nvs
        (save_state_to_nvs nvs
          { ctx with boot_mode := bm, current_state := st }).1 ctx2).1.boot_mode = bm) ∧
    ((load_state_from_nvs
        (save_state_to_nvs nvs
          { ctx with boot_mode := bm, current_state := st }).1 ctx2).1.current_state = st) := by
  cases bm <;> cases st <;> exact ⟨rfl, rfl⟩

/-! ## Registry lemmas -/

/-- The controller's in-place update fails exactly when the id is not on
record. -/
theorem update_existing_sensor_none_iff (sensors : List sensor_info_t)
    (device_id : String) (state now : Nat) :
    update_existing_sensor sensors device_id state now = none ↔
      device_id ∉ sensors.map sensor_info_t.device_id := by
  induction sensors with
  | nil => simp [update_existing_sensor]
  | cons s rest ih =>
      by_cases h : s.device_id = device_id
      · simp [update_existing_sensor, h]
      · simp only [update_existing_sensor, if_neg h, Option.map_eq_none', ih,
          List.map_cons, List.mem_cons]
        constructor
        · intro hrest hor
          rcases hor with heq | hmem
          · exact h heq.symm
          · exact hrest hmem
        · intro hall
          exact fun hmem => hall (Or.inr hmem)

/-- A successful in-place update keeps the sequence of ids (hence the
record count) unchanged. -/
theorem update_existing_sensor_some_map (sensors sensors' : List sensor_info_t)
    (device_id : String) (state now : Nat)
    (h : update_existing_sensor sensors device_id state now = some sensors') :
    sensors'.map sensor_info_t.device_id = sensors.map sensor_info_t.device_id := by
  induction sensors generalizing sensors' with
  | nil => simp [update_existing_sensor] at h
  | cons s rest ih =>
      by_cases heq : s.device_id = device_id
      · simp only [update_existing_sensor, if_pos heq, Option.some.injEq] at h
        subst h
        simp
      · simp only [update_existing_sensor, if_neg heq, Option.map_eq_some'] at h
        obtain ⟨l', hl', rfl⟩ := h
        simp [ih l' hl']

/-- The comm registry's in-place refresh also keeps the id sequence. -/
theorem comm_update_registered_some_map (sensors sensors' : List sensor_info_t)
    (device_id : String) (now : Nat)
    (h : comm_update_registered sensors device_id now = some sensors') :
    sensors'.map sensor_info_t.device_id = sensors.map sensor_info_t.device_id := by
  induction sensors generalizing sensors' with
  | nil => simp [comm_update_registered] at h
  | cons s rest ih =>
      by_cases heq : s.device_id = device_id
      · simp only [comm_update_registered, if_pos heq, Option.some.injEq] at h
        subst h
        simp
      · simp only [comm_update_registered, if_neg heq, Option.map_eq_some'] at h
        obtain ⟨l', hl', rfl⟩ := h
        simp [ih l' hl']

/-- `comm_unregister_sensor` touches only the `is_registered` flag:
every other field of every record, and the record count, survive. -/
theorem comm_unregister_sensor_preserves (sensors : List sensor_info_t)
    (device_id : String) :
    ((comm_unregister_sensor sensors device_id).1).map
        (fun r => (r.device_id, r.type, r.state, r.last_seen, r.last_rssi))
      = sensors.map (fun r => (r.device_id, r.type, r.state, r.last_seen, r.last_rssi)) := by
  induction sensors with
  | nil => rfl
  | cons s rest ih =>
      by_cases h : s.device_id = device_id
      · simp [comm_unregister_sensor, h]
      · simp [comm_unregister_sensor, h, ih]

/-- C9 (amended): bounded registries with fail-closed capacity and
flag-only unregistration. (a) the controller registry never exceeds
`MAX_SENSORS = 16`; (b) at capacity a new id is rejected and every
existing record (indeed the whole global state) is preserved; (c) an
upsert of a present id rewrites the record in place, keeping the id
sequence and the count; (d) the comm registry never exceeds its
capacity of 10; (e) at capacity `comm_register_sensor` rejects *every*
id — including an already-present one, which is then not refreshed (the
amendment forced by the counterexample); (f)+(g) `comm_unregister_sensor`
never deletes a record, it only clears the `is_registered` flag. -/
theorem sensor_registry_invariants (g : GlobalState) (device_id : String)
    (state now : Nat) (sensors : List sensor_info_t) (type : device_type_t) :
    (g.ctx.sensors.length ≤ MAX_SENSORS →
      ((controller_update_sensor_state g device_id state now).1).ctx.sensors.length
        ≤ MAX_SENSORS) ∧
    (MAX_SENSORS ≤ g.ctx.sensors.length →
      device_id ∉ g.ctx.sensors.map sensor_info_t.device_id →
      controller_update_sensor_state g device_id state now = (g, .ESP_OK)) ∧
    (device_id ∈ g.ctx.sensors.map sensor_info_t.device_id →
      ((controller_update_sensor_state g device_id state now).1).ctx.sensors.map
          sensor_info_t.device_id
        = g.ctx.sensors.map sensor_info_t.device_id) ∧
    (sensors.length ≤ COMM_MAX_SENSORS →
      ((comm_register_sensor sensors device_id type now).1).length
        ≤ COMM_MAX_SENSORS) ∧
    (COMM_MAX_SENSORS ≤ sensors.length →
      comm_register_sensor sensors device_id type now
        = (sensors, .ESP_ERR_NO_MEM)) ∧
    (((comm_unregister_sensor sensors device_id).1).length = sensors.length) ∧
    (((comm_unregister_sensor sensors device_id).1).map
        (fun r => (r.device_id, r.type, r.state, r.last_seen, r.last_rssi))
      = sensors.map (fun r => (r.device_id, r.type, r.state, r.last_seen, r.last_rssi))) := by
  refine ⟨?_, ?_, ?_, ?_, ?_, ?_, comm_unregister_sensor_preserves sensors device_id⟩
  · intro hle
    unfold controller_update_sensor_state
    cases hu : update_existing_sensor g.ctx.sensors device_id state now with
    | some sensors' =>
        have := update_existing_sensor_some_map g.ctx.sensors sensors' device_id state now hu
        have hlen : sensors'.length = g.ctx.sensors.length := by
          have := congrArg List.length this
          simpa using this
        simpa [hlen] using hle
    | none =>
        by_cases hcap : g.ctx.sensors.length < MAX_SENSORS
        · simp [hcap]
          omega
        · simpa [hcap] using hle
  · intro hfull hnot
    have hu : update_existing_sensor g.ctx.sensors device_id state now = none :=
      (update_existing_sensor_none_iff g.ctx.sensors device_id state now).mpr hnot
    have hcap : ¬g.ctx.sensors.length < MAX_SENSORS := by omega
    simp [controller_update_sensor_state, hu, hcap]
  · intro hmem
    cases hu : update_existing_sensor g.ctx.sensors device_id state now with
    | none =>
        exact absurd ((update_existing_sensor_none_iff _ _ _ _).mp hu) (by simp [hmem])
    | some sensors' =>
        simp [controller_update_sensor_state, hu,
          update_existing_sensor_some_map g.ctx.sensors sensors' device_id state now hu]
  · intro hle
    unfold comm_register_sensor
    by_cases hcap : COMM_MAX_SENSORS ≤ sensors.length
    · simpa [hcap] using hle
    · cases hu : comm_update_registered sensors device_id now with
      | some sensors' =>
          have := comm_update_registered_some_map sensors sensors' device_id now hu
          have hlen : sensors'.length = sensors.length := by
            have := congrArg List.length this
            simpa using this
          simp [hcap, hu, hlen]
          omega
      | none =>
          simp [hcap, hu]
          omega
  · intro hfull
    simp [comm_register_sensor, hfull]
  · have := congrArg List.length (comm_unregister_sensor_preserves sensors device_id)
    simpa using this

/-- A comm registry filled to its capacity of 10, `S0`…`S9`, all with
`last_seen = 0`. -/
def comm_full_registry : List sensor_info_t :=
  ["S0", "S1", "S2", "S3", "S4", "S5", "S6", "S7", "S8", "S9"].map
    (fun id => { device_id := id
                 type := .DEV_TYPE_SENSOR_DOOR
                 state := 0
                 is_registered := 1
                 last_seen := 0
                 last_rssi := 0 })

/-- C9 (counterexample): `comm_register_sensor` checks capacity *before*
searching for the id, so with the registry at its capacity an upsert of
the already-present id `S0` returns `ESP_ERR_NO_MEM` and leaves the
registry byte-for-byte unchanged — in particular `S0`'s `last_seen`
stays 0 instead of being refreshed to the call time 99. This falsifies
"an upsert of an already-present id updates that record in place". -/
theorem comm_register_full_skips_existing :
    "S0" ∈ comm_full_registry.map sensor_info_t.device_id ∧
    comm_register_sensor comm_full_registry "S0" .DEV_TYPE_SENSOR_DOOR 99
      = (comm_full_registry, .ESP_ERR_NO_MEM) ∧
    comm_full_registry.map sensor_info_t.last_seen
      = List.replicate 10 0 := by
  refine ⟨by decide, by decide, by decide⟩

/-- A controller registry filled to `MAX_SENSORS = 16`. -/
def controller_full_state : GlobalState :=
  { sample_armed_state with
    ctx := { sample_armed_state.ctx with
      sensors :=
        ["T00", "T01", "T02", "T03", "T04", "T05", "T06", "T07",
         "T08", "T09", "T10", "T11", "T12", "T13", "T14", "T15"].map
          (fun id => { device_id := id
                       type := .DEV_TYPE_SENSOR_DOOR
                       state := 0
                       is_registered := 1
                       last_seen := 0
                       last_rssi := 0 }) } }

/-- Witness for C9: the full controller registry rejects the new id
`NEW` (everything preserved, still `ESP_OK`), an upsert of the present
id `T03` keeps the id sequence, and the full comm registry rejects with
`ESP_ERR_NO_MEM`. -/
theorem sensor_registry_invariants_witness :
    controller_update_sensor_state controller_full_state "NEW" 1 7
      = (controller_full_state, .ESP_OK) ∧
    ((controller_update_sensor_state controller_full_state "T03" 1 7).1).ctx.sensors.map
        sensor_info_t.device_id
      = controller_full_state.ctx.sensors.map sensor_info_t.device_id ∧
    comm_register_sensor comm_full_registry "S0" .DEV_TYPE_SENSOR_DOOR 99
      = (comm_full_registry, .ESP_ERR_NO_MEM) :=
  ⟨(sensor_registry_invariants controller_full_state "NEW" 1 7 [] .DEV_TYPE_GATEWAY).2.1
      (by decide) (by decide),
   (sensor_registry_invariants controller_full_state "T03" 1 7 [] .DEV_TYPE_GATEWAY).2.2.1
      (by decide),
   (sensor_registry_invariants sample_armed_state "S0" 0 99 comm_full_registry
      .DEV_TYPE_SENSOR_DOOR).2.2.2.2.1 (by decide)⟩

/-- C10: the decoder accepts every syntactically valid JSON document
(`ESP_OK` whatever fields are present); the bare document `{}` decodes
to the zero-initialized message — type `MSG_TYPE_SENSOR_EVENT` (code 0),
action `SENSOR_ACTION_OPEN` (code 0), empty source id — which the comm
task forwards with the placeholder RSSI; dispatching that message while
the system is `Armed` drives the state to `Alarm`. -/
theorem parse_json_total_empty_object_alarm :
    (∀ (doc : Json) (message : controller_message_t),
      (parse_json_message (some doc) message).1 = .ESP_OK) ∧
    comm_processing_step (some (Json.obj []))
      = some { zero_message with rssi := -50 } ∧
    zero_message.payload.type = .MSG_TYPE_SENSOR_EVENT ∧
    zero_message.payload.action = .SENSOR_ACTION_OPEN ∧
    zero_message.header.src_id = "" ∧
    (∀ (g : GlobalState) (now : Nat),
      g.ctx.current_state = .SYS_STATE_ARMED →
      (process_message g { zero_message with rssi := -50 } now).ctx.current_state
        = .SYS_STATE_ALARM) := by
  refine ⟨fun doc message => rfl, rfl, rfl, rfl, rfl, ?_⟩
  intro g now h
  rw [process_message_matches_table]
  simp [spec_transition_step, zero_message, h]

/-- Witness for C10: the `{}` message raises the alarm from the concrete
armed state. -/
theorem parse_json_total_empty_object_alarm_witness :
    (process_message sample_armed_state
        { zero_message with rssi := -50 } 3).ctx.current_state
      = .SYS_STATE_ALARM :=
  parse_json_total_empty_object_alarm.2.2.2.2.2 sample_armed_state 3 rfl

end Ghost
